import Mathlib

/-!
Shallow embedding of the CRMS (Crime Record Management System) core:
the JWT access-gate middleware, the incident REST handlers
(POST/GET list, PATCH/DELETE by id) and the evidence handlers
(POST, DELETE by id), translated from

  src/middleware.ts
  src/app/api/incidents/route.ts
  src/app/api/incidents/[id]/route.ts
  src/app/api/incidents/[id]/evidence/route.ts
  src/app/api/incidents/[id]/evidence/[evidenceId]/route.ts
  src/app/lib/schemas.ts  (IncidentUpdateSchema, EvidenceCreateSchema)

Notes on the embedding:
* The database is a triple of lists (users, incidents, evidence); prisma
  calls `findUnique` / `create` / `update` / `delete` / `findMany` /
  `count` become list operations.  Dates are epoch integers.
* Request bodies are modelled after JSON parsing: each known schema
  field is an `Option` (absent vs present).  zod strips unknown keys, so
  unknown keys are represented only where a claim is about them (the
  `reportedByIdRaw` / `rawAddedById` fields, which no handler reads).
* `occurredAt` inputs are modelled as already-parsed epoch values; requests
  whose occurredAt string fails the ISO-8601 / Date coercion check are
  rejected with 400 by zod and are outside this model's input space (no
  claim concerns them).
* Headers set by the middleware are `Option String` (a missing header is
  `none`); JavaScript truthiness of a header value means "present and
  non-empty".
-/

/-! ## Data model (prisma/schema.prisma) -/

structure User where
  id : String
  badgeId : String
  name : String
  isAdmin : Bool
  deriving Repr, DecidableEq

structure Incident where
  id : String
  caseNumber : String
  reportedAt : Int
  occurredAt : Int
  location : String
  crimeType : String
  description : String
  status : String
  closingReason : Option String
  reportedById : String
  deriving Repr, DecidableEq

structure Evidence where
  id : String
  description : String
  type : String
  storageReference : String
  incidentId : String
  addedById : String
  createdAt : Int
  deriving Repr, DecidableEq

structure Db where
  users : List User
  incidents : List Incident
  evidence : List Evidence
  deriving Repr, DecidableEq

/-! ## JavaScript-level helpers -/

/-- `x || d` for an optional string query/header value: JavaScript falls
back to the default on `null` and on the empty string (both falsy). -/
def getOr (v : Option String) (d : String) : String :=
  match v with
  | none => d
  | some s => if s = "" then d else s

/-- JavaScript `parseInt(s, 10)`: skip leading whitespace, optional sign,
read the leading decimal-digit run; `none` models `NaN` (no digits). -/
def jsParseInt (s : String) : Option Int :=
  let cs := s.toList.dropWhile Char.isWhitespace
  let signed : Bool × List Char :=
    match cs with
    | '-' :: t => (true, t)
    | '+' :: t => (false, t)
    | _ => (false, cs)
  let ds := signed.2.takeWhile Char.isDigit
  if ds.isEmpty then none
  else
    let n : Nat := ds.foldl (fun acc c => acc * 10 + (c.toNat - 48)) 0
    some (if signed.1 then -(n : Int) else (n : Int))

/-- `String.trim` on the character list (structurally recursive so that
concrete instances evaluate in the kernel). -/
def strTrim (s : String) : String :=
  String.mk (((s.toList.dropWhile Char.isWhitespace).reverse.dropWhile
    Char.isWhitespace).reverse)

/-- `String.toLowerCase` (ASCII). -/
def strLower (s : String) : String :=
  String.mk (s.toList.map Char.toLower)

/-- `needle` occurs at the head of `hay`. -/
def hasLead : List Char → List Char → Bool
  | [], _ => true
  | _ :: _, [] => false
  | a :: as, b :: bs => a == b && hasLead as bs

/-- `needle` occurs somewhere inside `hay`. -/
def hasSub (n : List Char) : List Char → Bool
  | [] => hasLead n []
  | c :: t => hasLead n (c :: t) || hasSub n (t)

/-- Prisma `contains` with `mode: 'insensitive'`. -/
def containsCI (hay needle : String) : Bool :=
  hasSub (strLower needle).toList (strLower hay).toList

/-! ## Validation schemas (zod) -/

/-- The three incident status values accepted by the zod enums. -/
def statusEnum : List String := ["Open", "Under Investigation", "Closed"]

/-- The evidence type enum of `EvidenceCreateSchema`. -/
def evidenceTypeEnum : List String :=
  ["Photo", "Document", "Physical Item", "Statement", "Video", "Audio", "Other"]

/-- zod v3 cuid check, regex `^c[^\s-]{8,}$` case-insensitive. -/
def isZodCuid (s : String) : Bool :=
  match s.toList with
  | [] => false
  | c :: rest =>
      (c == 'c' || c == 'C') && decide (rest.length ≥ 8) &&
      rest.all (fun ch => !ch.isWhitespace && ch != '-')

/-- Body of `PATCH /api/incidents/:id` after JSON parsing.  Fields are the
keys `IncidentUpdateSchema` knows; `reportedByIdRaw` stands for a
`reportedById` key in the raw JSON, which zod strips (unknown key).
`closingReason`: outer `Option` = key present, inner = string vs JSON null. -/
structure UpdateBody where
  occurredAt : Option Int
  location : Option String
  crimeType : Option String
  description : Option String
  status : Option String
  closingReason : Option (Option String)
  reportedByIdRaw : Option String
  deriving Repr, DecidableEq

/-- Output of `IncidentUpdateSchema.safeParse` on success (strings trimmed
by the `.trim()` transforms; unknown keys stripped). -/
structure ParsedUpdate where
  occurredAt : Option Int
  location : Option String
  crimeType : Option String
  description : Option String
  status : Option String
  closingReason : Option (Option String)
  deriving Repr, DecidableEq

/-- `z.enum(['Open', 'Under Investigation', 'Closed']).optional()`. -/
def statusOk : Option String → Bool
  | none => true
  | some s => statusEnum.contains s

/-- Field checks of `IncidentUpdateSchema` plus its `.refine` (at least one
of the schema's own keys present). -/
def zodUpdateValid (b : UpdateBody) : Bool :=
  (match b.location with | none => true | some s => strTrim s != "") &&
  (match b.crimeType with | none => true | some s => strTrim s != "") &&
  (match b.description with | none => true | some s => strTrim s != "") &&
  statusOk b.status &&
  (b.occurredAt.isSome || b.location.isSome || b.crimeType.isSome ||
   b.description.isSome || b.status.isSome || b.closingReason.isSome)

/-- `IncidentUpdateSchema.safeParse`: `none` is a validation failure. -/
def zodUpdateParse (b : UpdateBody) : Option ParsedUpdate :=
  if zodUpdateValid b then
    some { occurredAt := b.occurredAt
           location := b.location.map strTrim
           crimeType := b.crimeType.map strTrim
           description := b.description.map strTrim
           status := b.status
           closingReason := b.closingReason.map (Option.map strTrim) }
  else none

/-- Body of `POST /api/incidents` after JSON parsing (the route-local
`IncidentCreateSchema` in app/api/incidents/route.ts). -/
structure CreateBody where
  occurredAt : Option Int
  location : Option String
  crimeType : Option String
  description : Option String
  reportedById : Option String
  status : Option String
  deriving Repr, DecidableEq

structure ParsedCreate where
  occurredAt : Int
  location : String
  crimeType : String
  description : String
  reportedById : String
  status : Option String
  deriving Repr, DecidableEq

/-- Field checks of the route-local `IncidentCreateSchema`: occurredAt
required (an ISO datetime, already parsed in this model),
location/crimeType/description required and non-empty after trimming,
reportedById a cuid, status in the enum when given. -/
def zodCreateValid (b : CreateBody) : Bool :=
  b.occurredAt.isSome && b.location.isSome && b.crimeType.isSome &&
  b.description.isSome && b.reportedById.isSome &&
  strTrim (b.location.getD "") != "" && strTrim (b.crimeType.getD "") != "" &&
  strTrim (b.description.getD "") != "" && isZodCuid (b.reportedById.getD "") &&
  statusOk b.status

/-- `IncidentCreateSchema.safeParse`: `none` is a validation failure. -/
def zodCreateParse (b : CreateBody) : Option ParsedCreate :=
  if zodCreateValid b then
    some { occurredAt := b.occurredAt.getD 0,
           location := strTrim (b.location.getD ""),
           crimeType := strTrim (b.crimeType.getD ""),
           description := strTrim (b.description.getD ""),
           reportedById := b.reportedById.getD "",
           status := b.status }
  else none

/-- Body of `POST /api/incidents/:id/evidence` after JSON parsing.
`rawAddedById` stands for an `addedById` key in the raw JSON, stripped by
zod (`EvidenceCreateSchema` has no such field). -/
structure EvidenceBody where
  description : Option String
  type : Option String
  storageReference : Option String
  rawAddedById : Option String
  deriving Repr, DecidableEq

/-- Field checks of `EvidenceCreateSchema`: description and
storageReference required and non-empty after trimming, type in the enum. -/
def zodEvidenceValid (b : EvidenceBody) : Bool :=
  b.description.isSome && b.type.isSome && b.storageReference.isSome &&
  strTrim (b.description.getD "") != "" &&
  evidenceTypeEnum.contains (b.type.getD "") &&
  strTrim (b.storageReference.getD "") != ""

/-- `EvidenceCreateSchema.safeParse`: `none` is a validation failure;
success returns (description, type, storageReference), trimmed. -/
def zodEvidenceParse (b : EvidenceBody) : Option (String × String × String) :=
  if zodEvidenceValid b then
    some (strTrim (b.description.getD ""), b.type.getD "",
          strTrim (b.storageReference.getD ""))
  else none

/-! ## Access Gate (middleware.ts) -/

/-- Result of `jose.jwtVerify` on a token: success carries the claims the
middleware reads; the failure constructors are the error kinds the catch
block distinguishes (`ERR_JWT_EXPIRED`, other `ERR_JWT*`,
`ERR_JOSE_GENERIC`, anything else).  The cryptographic verification itself
is an opaque external service and is passed in as a function. -/
inductive VerifyResult where
  | ok (userId badgeId : String) (isAdmin : Bool)
  | expired
  | jwtInvalid
  | joseGeneric
  | otherError
  deriving Repr, DecidableEq

def VerifyResult.isOk : VerifyResult → Bool
  | .ok _ _ _ => true
  | _ => false

/-- Outcome of the middleware: an early response, or proceed with the
three identity headers (X-User-Id, X-User-BadgeId, X-User-IsAdmin). -/
inductive GateResult where
  | respond (status : Nat) (message : String)
  | proceed (xUserId xUserBadgeId xUserIsAdmin : String)
  deriving Repr, DecidableEq

def GateResult.statusCode : GateResult → Option Nat
  | .respond s _ => some s
  | .proceed _ _ _ => none

/-- Token extraction from the Authorization header: present, Bearer
scheme, and a non-empty token after the prefix (an empty token is falsy
and is treated like a missing one by `if (!token)`). -/
def bearerToken (authHeader : Option String) : Option String :=
  match authHeader with
  | none => none
  | some h =>
      if hasLead "Bearer ".toList h.toList then
        let t := String.mk (h.toList.drop 7)
        if t = "" then none else some t
      else none

/-- `JWT_SECRET` is configured: present and non-empty (an empty env var is
falsy, so `secretKey` is never derived from it). -/
def secretConfigured : Option String → Bool
  | none => false
  | some s => s != ""

/-- middleware.ts: 401 without a bearer token; 500 when a token is present
but no secret is configured; 401 with a kind-specific message when
verification fails; otherwise proceed with the claims as headers. -/
def middleware (authHeader jwtSecret : Option String)
    (verify : String → VerifyResult) : GateResult :=
  match bearerToken authHeader with
  | none => .respond 401 "Authentication required."
  | some token =>
      if secretConfigured jwtSecret then
        match verify token with
        | .ok u b a => .proceed u b (if a then "true" else "false")
        | .expired => .respond 401 "Token has expired."
        | .jwtInvalid => .respond 401 "Invalid token (verification failed)."
        | .joseGeneric => .respond 401 "Token processing failed."
        | .otherError => .respond 401 "Invalid or expired token."
      else .respond 500 "Internal server configuration error."

/-! ## Incident handlers -/

/-- `POST /api/incidents` (app/api/incidents/route.ts).  `actorId` is the
verified X-User-Id the Access Gate injected; the handler never reads it —
the owner is `reportedById` from the body.  `newId`, `newCaseNumber` and
`now` stand for the store-generated cuids and `now()` default. -/
def createIncident (db : Db) (actorId : String) (body : CreateBody)
    (newId newCaseNumber : String) (now : Int) : Nat × Db :=
  match zodCreateParse body with
  | none => (400, db)
  | some p =>
      match db.users.find? (fun u => u.id == p.reportedById) with
      | none => (400, db)
      | some _ =>
          (201, { db with incidents := db.incidents ++
            [{ id := newId, caseNumber := newCaseNumber, reportedAt := now,
               occurredAt := p.occurredAt, location := p.location,
               crimeType := p.crimeType, description := p.description,
               status := p.status.getD "Open", closingReason := none,
               reportedById := p.reportedById }] })

/-- `allowedSortByFields` of app/api/incidents/route.ts. -/
def allowedSortByFields : List String :=
  ["reportedAt", "occurredAt", "status", "crimeType", "location"]

/-- The orderBy clause of the list query, as (field, order): the requested
pair when the field is allow-listed and the order is asc/desc, otherwise
the default (reportedAt, desc).  Query params default via `|| `. -/
def orderByClause (sortByQ sortOrderQ : Option String) : String × String :=
  let sortBy := getOr sortByQ "reportedAt"
  let sortOrder := getOr sortOrderQ "desc"
  if allowedSortByFields.contains sortBy &&
     (sortOrder == "asc" || sortOrder == "desc") then
    (sortBy, sortOrder)
  else ("reportedAt", "desc")

/-- The prisma where-clause of the list query: the status filter applies
only to one of the three enum values; a non-blank searchQuery matches
case-insensitively in caseNumber, crimeType, location or description. -/
def matchesFilter (statusQ searchQ : Option String) (i : Incident) : Bool :=
  (match statusQ with
   | none => true
   | some s =>
       if s != "" && statusEnum.contains s then i.status == s else true) &&
  (match searchQ with
   | none => true
   | some q =>
       if q != "" && strTrim q != "" then
         containsCI i.caseNumber q || containsCI i.crimeType q ||
         containsCI i.location q || containsCI i.description q
       else true)

/-- Ascending comparison on an incident field named by the orderBy clause. -/
def fieldLe (field : String) (a b : Incident) : Bool :=
  if field == "occurredAt" then decide (a.occurredAt ≤ b.occurredAt)
  else if field == "status" then decide (a.status ≤ b.status)
  else if field == "crimeType" then decide (a.crimeType ≤ b.crimeType)
  else if field == "location" then decide (a.location ≤ b.location)
  else decide (a.reportedAt ≤ b.reportedAt)

def insertLe (le : Incident → Incident → Bool) (x : Incident) :
    List Incident → List Incident
  | [] => [x]
  | y :: ys => if le x y then x :: y :: ys else y :: insertLe le x ys

def sortByLe (le : Incident → Incident → Bool) : List Incident → List Incident
  | [] => []
  | x :: xs => insertLe le x (sortByLe le xs)

/-- The store's ORDER BY for the page fetch. -/
def sortIncidents (clause : String × String) (l : List Incident) : List Incident :=
  sortByLe (fun a b =>
    if clause.2 == "desc" then fieldLe clause.1 b a else fieldLe clause.1 a b) l

/-- `Math.max(1, parseInt(page || '1'))`; `none` models NaN, which
`Math.max` propagates. -/
def effectivePage (pageQ : Option String) : Option Int :=
  (jsParseInt (getOr pageQ "1")).map (fun n => max 1 n)

/-- `Math.max(1, Math.min(50, parseInt(limit || '10')))`; `none` models NaN. -/
def effectiveLimit (limitQ : Option String) : Option Int :=
  (jsParseInt (getOr limitQ "10")).map (fun n => max 1 (min 50 n))

/-- The 200 payload of `GET /api/incidents`. -/
structure ListOkResult where
  incidents : List Incident
  currentPage : Int
  totalPages : Nat
  totalCount : Nat
  limit : Int
  deriving Repr, DecidableEq

/-- The list query against the store, given validated page/limit: filter,
sort, `skip = (page-1)*limit`, `take = limit`, count on the same filter,
`totalPages = Math.ceil(totalCount / limit)` (limit ≥ 1 here, so the JS
float ceil is Nat ceiling division). -/
def listOk (db : Db) (p l : Int) (statusQ searchQ sortByQ sortOrderQ : Option String) :
    ListOkResult :=
  let skip := ((p - 1) * l).toNat
  let filtered := db.incidents.filter (matchesFilter statusQ searchQ)
  let sorted := sortIncidents (orderByClause sortByQ sortOrderQ) filtered
  let pageItems := (sorted.drop skip).take l.toNat
  let totalCount := filtered.length
  { incidents := pageItems, currentPage := p,
    totalPages := (totalCount + l.toNat - 1) / l.toNat,
    totalCount := totalCount, limit := l }

/-- `GET /api/incidents`.  When parseInt yields NaN for page or limit, the
NaN flows into the prisma skip/take arguments, prisma throws, and the
catch block answers 500 with no payload — modelled as `none`. -/
def listIncidents (db : Db)
    (pageQ limitQ statusQ searchQ sortByQ sortOrderQ : Option String) :
    Option ListOkResult :=
  match effectivePage pageQ, effectiveLimit limitQ with
  | some p, some l => some (listOk db p l statusQ searchQ sortByQ sortOrderQ)
  | _, _ => none

/-! ## Incident PATCH / DELETE (app/api/incidents/[id]/route.ts) -/

/-- The update payload sent to `prisma.incident.update` after the route
builds `updateData` and deletes the keys whose value is `undefined`.
`closingReason = some v` means the key is present with value `v`
(`some none` sets the column to SQL null). -/
structure UpdateData where
  occurredAt : Option Int
  location : Option String
  crimeType : Option String
  description : Option String
  status : Option String
  closingReason : Option (Option String)
  deriving Repr, DecidableEq

/-- updateData construction in the PATCH handler: spread the validated
fields, map an empty-string closingReason to null, then force
closingReason to null whenever the patch carries a status other than
'Closed'. -/
def mkUpdateData (p : ParsedUpdate) : UpdateData :=
  let cr : Option (Option String) :=
    match p.closingReason with
    | none => none
    | some none => some none
    | some (some s) => if s = "" then some none else some (some s)
  let cr :=
    match p.status with
    | some s => if s ≠ "Closed" then some none else cr
    | none => cr
  { occurredAt := p.occurredAt, location := p.location,
    crimeType := p.crimeType, description := p.description,
    status := p.status, closingReason := cr }

/-- `Object.keys(updateData).length === 0` after undefined keys are removed. -/
def emptyUpdateData (u : UpdateData) : Bool :=
  u.occurredAt.isNone && u.location.isNone && u.crimeType.isNone &&
  u.description.isNone && u.status.isNone && u.closingReason.isNone

/-- `prisma.incident.update({ where: { id }, data })` on one record. -/
def applyUpdate (i : Incident) (u : UpdateData) : Incident :=
  { i with
    occurredAt := u.occurredAt.getD i.occurredAt
    location := u.location.getD i.location
    crimeType := u.crimeType.getD i.crimeType
    description := u.description.getD i.description
    status := u.status.getD i.status
    closingReason := match u.closingReason with
                     | none => i.closingReason
                     | some v => v }

/-- `PATCH /api/incidents/:id`.  In source order: 400 for a missing or
placeholder path id; 401 when the X-User-Id header is falsy; 404 when the
incident is absent; 403 unless admin or reporter; 400 when the body fails
`IncidentUpdateSchema`; 400 when updateData has no keys; else update, 200. -/
def patchIncident (db : Db) (userIdH isAdminH : Option String) (id : String)
    (body : UpdateBody) : Nat × Db :=
  if id = "" ∨ id = "[id]" then (400, db)
  else if userIdH.getD "" = "" then (401, db)
  else
    match db.incidents.find? (fun i => i.id == id) with
    | none => (404, db)
    | some inc =>
        if ¬(isAdminH = some "true") ∧ inc.reportedById ≠ userIdH.getD "" then
          (403, db)
        else
          match zodUpdateParse body with
          | none => (400, db)
          | some parsed =>
              if emptyUpdateData (mkUpdateData parsed) then (400, db)
              else
                (200, { db with incidents :=
                  db.incidents.map (fun i =>
                    if i.id == id then applyUpdate i (mkUpdateData parsed) else i) })

/-- `DELETE /api/incidents/:id`: same path/auth/existence/ownership checks
as PATCH, then `prisma.incident.delete` — which cascades to the incident's
evidence per the schema's `onDelete: Cascade`. -/
def deleteIncident (db : Db) (userIdH isAdminH : Option String) (id : String) :
    Nat × Db :=
  if id = "" ∨ id = "[id]" then (400, db)
  else if userIdH.getD "" = "" then (401, db)
  else
    match db.incidents.find? (fun i => i.id == id) with
    | none => (404, db)
    | some inc =>
        if ¬(isAdminH = some "true") ∧ inc.reportedById ≠ userIdH.getD "" then
          (403, db)
        else
          (204, { db with
                  incidents := db.incidents.filter (fun i => !(i.id == id)),
                  evidence := db.evidence.filter (fun e => !(e.incidentId == id)) })

/-! ## Evidence handlers -/

/-- `POST /api/incidents/:id/evidence`
(app/api/incidents/[id]/evidence/route.ts): 400 for a bad path id; 401
when X-User-Id is falsy; 404 when the parent incident is absent; 400 when
the body fails `EvidenceCreateSchema`; else create with `addedById` taken
from the X-User-Id header, 201. -/
def createEvidence (db : Db) (userIdH : Option String) (incidentId : String)
    (body : EvidenceBody) (newId : String) (now : Int) : Nat × Db :=
  if incidentId = "" ∨ incidentId = "[id]" then (400, db)
  else if userIdH.getD "" = "" then (401, db)
  else
    match db.incidents.find? (fun i => i.id == incidentId) with
    | none => (404, db)
    | some _ =>
        match zodEvidenceParse body with
        | none => (400, db)
        | some (d, t, sr) =>
            (201, { db with evidence := db.evidence ++
              [{ id := newId, description := d, type := t,
                 storageReference := sr, incidentId := incidentId,
                 addedById := userIdH.getD "", createdAt := now }] })

/-- `DELETE /api/incidents/:id/evidence/:evidenceId`
(app/api/incidents/[id]/evidence/[evidenceId]/route.ts).  In source
order: 400 when either path id is falsy; 401 when X-User-Id is falsy;
404 when the evidence is absent; 400 when the evidence belongs to a
different incident than the path; 403 unless admin or the user who added
it; else delete, 204 no content. -/
def deleteEvidence (db : Db) (userIdH isAdminH : Option String)
    (incidentId evidenceId : String) : Nat × Db :=
  if incidentId = "" ∨ evidenceId = "" then (400, db)
  else if userIdH.getD "" = "" then (401, db)
  else
    match db.evidence.find? (fun e => e.id == evidenceId) with
    | none => (404, db)
    | some ev =>
        if ev.incidentId ≠ incidentId then (400, db)
        else if ¬(isAdminH = some "true") ∧ ev.addedById ≠ userIdH.getD "" then
          (403, db)
        else
          (204, { db with evidence := db.evidence.filter (fun e => !(e.id == evidenceId)) })

/-! ## Claims -/

/-- C1, counterexample.  The claim says closingReason is null after every
update whose resulting status is not 'Closed', "including patches that
omit the status field while the record's current status is not 'Closed'".
On an Open incident, a patch that omits `status` but supplies
`closingReason = "oops"` succeeds (200) and stores closingReason "oops"
while the resulting status is still "Open" — the PATCH handler forces
closingReason to null only when the patch itself carries a non-Closed
status. -/
theorem c1_counterexample :
    patchIncident
      { users := [],
        incidents := [{ id := "i1", caseNumber := "CASE1", reportedAt := 0,
                        occurredAt := 0, location := "L", crimeType := "T",
                        description := "D", status := "Open",
                        closingReason := none, reportedById := "u1" }],
        evidence := [] }
      (some "u1") none "i1"
      { occurredAt := none, location := none, crimeType := none,
        description := none, status := none,
        closingReason := some (some "oops"), reportedByIdRaw := none } =
    (200,
      { users := [],
        incidents := [{ id := "i1", caseNumber := "CASE1", reportedAt := 0,
                        occurredAt := 0, location := "L", crimeType := "T",
                        description := "D", status := "Open",
                        closingReason := some "oops", reportedById := "u1" }],
        evidence := [] }) := by decide

/-- C1, amended: for every PATCH update of an Incident, if the patch
itself contains a status field whose value is not 'Closed' and the update
succeeds, then the stored closingReason of every record with the patched
id is null afterwards, regardless of the closingReason supplied in the
patch or previously held; patches that omit the status field are not
subject to this forcing. -/
theorem c1_amended_closingReason (db : Db) (userIdH isAdminH : Option String)
    (id : String) (body : UpdateBody) (s : String)
    (hs : body.status = some s) (hns : s ≠ "Closed")
    (h200 : (patchIncident db userIdH isAdminH id body).1 = 200) :
    ((patchIncident db userIdH isAdminH id body).2.incidents.filter
      (fun i => i.id == id)).all (fun i => i.closingReason.isNone) = true := by
  revert h200
  unfold patchIncident
  split
  · intro h; simp at h
  · split
    · intro h; simp at h
    · split
      · intro h; simp at h
      · split
        · intro h; simp at h
        · split
          · intro h; simp at h
          · rename_i parsed hp
            split
            · intro h; simp at h
            · intro _
              have hpst : parsed.status = some s := by
                unfold zodUpdateParse at hp
                split at hp
                · cases hp; simpa using hs
                · cases hp
              have hcr : (mkUpdateData parsed).closingReason = some none := by
                unfold mkUpdateData
                rw [hpst]
                simp [hns]
              simp only [List.all_eq_true, List.mem_filter]
              rintro x ⟨hx, hxid⟩
              rcases List.mem_map.mp hx with ⟨j, _, rfl⟩
              by_cases hj : j.id == id
              · simp only [hj, if_true, applyUpdate, hcr]
                rfl
              · simp only [hj] at hxid
                simp at hj hxid
                exact absurd hxid hj

/-- C1 amended, witness: on an Open incident owned by u1, a patch carrying
status "Open" and a non-null closingReason yields 200 and the stored
closingReason is null. -/
theorem c1_amended_closingReason_witness :
    ((patchIncident
      { users := [],
        incidents := [{ id := "i1", caseNumber := "CASE1", reportedAt := 0,
                        occurredAt := 0, location := "L", crimeType := "T",
                        description := "D", status := "Open",
                        closingReason := some "old", reportedById := "u1" }],
        evidence := [] }
      (some "u1") none "i1"
      { occurredAt := none, location := none, crimeType := none,
        description := none, status := some "Open",
        closingReason := some (some "keep me"), reportedByIdRaw := none }).2.incidents.filter
      (fun i => i.id == "i1")).all (fun i => i.closingReason.isNone) = true :=
  c1_amended_closingReason _ _ _ _ _ "Open" rfl (by decide) (by rfl)


/-! Reduction helpers: with a truthy actor header, a well-formed path id
and an existing record, each handler reduces past its path, auth and
existence checks to its authorization decision. -/

theorem patchIncident_reduce (db : Db) (uid : String) (isAdminH : Option String)
    (incId : String) (body : UpdateBody) (inc : Incident)
    (huid : uid ≠ "") (hincid : ¬(incId = "" ∨ incId = "[id]"))
    (hfindI : db.incidents.find? (fun i => i.id == incId) = some inc) :
    patchIncident db (some uid) isAdminH incId body =
      if ¬(isAdminH = some "true") ∧ inc.reportedById ≠ uid then (403, db)
      else
        match zodUpdateParse body with
        | none => (400, db)
        | some parsed =>
            if emptyUpdateData (mkUpdateData parsed) then (400, db)
            else
              (200, { db with incidents := db.incidents.map (fun i =>
                if i.id == incId then applyUpdate i (mkUpdateData parsed) else i) }) := by
  unfold patchIncident
  rw [if_neg hincid,
      if_neg (show ¬((some uid).getD "" = "") by simpa using huid), hfindI]
  rfl

theorem deleteIncident_reduce (db : Db) (uid : String) (isAdminH : Option String)
    (incId : String) (inc : Incident)
    (huid : uid ≠ "") (hincid : ¬(incId = "" ∨ incId = "[id]"))
    (hfindI : db.incidents.find? (fun i => i.id == incId) = some inc) :
    deleteIncident db (some uid) isAdminH incId =
      if ¬(isAdminH = some "true") ∧ inc.reportedById ≠ uid then (403, db)
      else
        (204, { db with
                incidents := db.incidents.filter (fun i => !(i.id == incId)),
                evidence := db.evidence.filter (fun e => !(e.incidentId == incId)) }) := by
  unfold deleteIncident
  rw [if_neg hincid,
      if_neg (show ¬((some uid).getD "" = "") by simpa using huid), hfindI]
  rfl

theorem deleteEvidence_reduce (db : Db) (uid : String) (isAdminH : Option String)
    (incId evId : String) (ev : Evidence)
    (huid : uid ≠ "") (hids : ¬(incId = "" ∨ evId = ""))
    (hfindE : db.evidence.find? (fun e => e.id == evId) = some ev)
    (hmatch : ev.incidentId = incId) :
    deleteEvidence db (some uid) isAdminH incId evId =
      if ¬(isAdminH = some "true") ∧ ev.addedById ≠ uid then (403, db)
      else
        (204, { db with evidence := db.evidence.filter (fun e => !(e.id == evId)) }) := by
  unfold deleteEvidence
  rw [if_neg hids,
      if_neg (show ¬((some uid).getD "" = "") by simpa using huid), hfindE]
  simp only [hmatch]
  rw [if_neg (show ¬(incId ≠ incId) by simp)]
  rfl

theorem patchIncident_forbidden_iff (db : Db) (uid : String)
    (isAdminH : Option String) (incId : String) (body : UpdateBody) (inc : Incident)
    (huid : uid ≠ "") (hincid : ¬(incId = "" ∨ incId = "[id]"))
    (hfindI : db.incidents.find? (fun i => i.id == incId) = some inc) :
    ((patchIncident db (some uid) isAdminH incId body).1 = 403 ↔
      ¬(isAdminH = some "true" ∨ inc.reportedById = uid)) ∧
    ((patchIncident db (some uid) isAdminH incId body).1 = 403 →
      (patchIncident db (some uid) isAdminH incId body).2 = db) := by
  rw [patchIncident_reduce db uid isAdminH incId body inc huid hincid hfindI]
  by_cases hA : isAdminH = some "true" ∨ inc.reportedById = uid
  · have hcond : ¬(¬(isAdminH = some "true") ∧ inc.reportedById ≠ uid) := by tauto
    rw [if_neg hcond]
    rcases hz : zodUpdateParse body with _ | parsed
    · simp [hA]
    · by_cases he : emptyUpdateData (mkUpdateData parsed) <;> simp [he, hA]
  · have hcond : ¬(isAdminH = some "true") ∧ inc.reportedById ≠ uid := by tauto
    rw [if_pos hcond]
    simp [hA]

theorem deleteIncident_forbidden_iff (db : Db) (uid : String)
    (isAdminH : Option String) (incId : String) (inc : Incident)
    (huid : uid ≠ "") (hincid : ¬(incId = "" ∨ incId = "[id]"))
    (hfindI : db.incidents.find? (fun i => i.id == incId) = some inc) :
    ((deleteIncident db (some uid) isAdminH incId).1 = 403 ↔
      ¬(isAdminH = some "true" ∨ inc.reportedById = uid)) ∧
    ((deleteIncident db (some uid) isAdminH incId).1 = 403 →
      (deleteIncident db (some uid) isAdminH incId).2 = db) := by
  rw [deleteIncident_reduce db uid isAdminH incId inc huid hincid hfindI]
  by_cases hA : isAdminH = some "true" ∨ inc.reportedById = uid
  · have hcond : ¬(¬(isAdminH = some "true") ∧ inc.reportedById ≠ uid) := by tauto
    rw [if_neg hcond]
    simp [hA]
  · have hcond : ¬(isAdminH = some "true") ∧ inc.reportedById ≠ uid := by tauto
    rw [if_pos hcond]
    simp [hA]

theorem deleteEvidence_forbidden_iff (db : Db) (uid : String)
    (isAdminH : Option String) (incId evId : String) (ev : Evidence)
    (huid : uid ≠ "") (hids : ¬(incId = "" ∨ evId = ""))
    (hfindE : db.evidence.find? (fun e => e.id == evId) = some ev)
    (hmatch : ev.incidentId = incId) :
    ((deleteEvidence db (some uid) isAdminH incId evId).1 = 403 ↔
      ¬(isAdminH = some "true" ∨ ev.addedById = uid)) ∧
    ((deleteEvidence db (some uid) isAdminH incId evId).1 = 403 →
      (deleteEvidence db (some uid) isAdminH incId evId).2 = db) := by
  rw [deleteEvidence_reduce db uid isAdminH incId evId ev huid hids hfindE hmatch]
  by_cases hA : isAdminH = some "true" ∨ ev.addedById = uid
  · have hcond : ¬(¬(isAdminH = some "true") ∧ ev.addedById ≠ uid) := by tauto
    rw [if_neg hcond]
    simp [hA]
  · have hcond : ¬(isAdminH = some "true") ∧ ev.addedById ≠ uid := by tauto
    rw [if_pos hcond]
    simp [hA]

/-- C2: for every Incident PATCH, Incident DELETE and Evidence DELETE by
an authenticated actor on an existing, route-consistent resource, the
operation is refused as Forbidden (403) exactly when the actor is neither
admin nor the resource's owner (reportedById for incidents, addedById for
evidence), and a Forbidden refusal leaves the store unchanged. -/
theorem c2_admin_or_owner_policy
    (db : Db) (uid : String) (isAdminH : Option String) (incId evId : String)
    (body : UpdateBody) (inc : Incident) (ev : Evidence)
    (huid : uid ≠ "")
    (hincid : ¬(incId = "" ∨ incId = "[id]"))
    (hevid : evId ≠ "")
    (hfindI : db.incidents.find? (fun i => i.id == incId) = some inc)
    (hfindE : db.evidence.find? (fun e => e.id == evId) = some ev)
    (hmatch : ev.incidentId = incId) :
    ((patchIncident db (some uid) isAdminH incId body).1 = 403 ↔
       ¬(isAdminH = some "true" ∨ inc.reportedById = uid)) ∧
    ((patchIncident db (some uid) isAdminH incId body).1 = 403 →
       (patchIncident db (some uid) isAdminH incId body).2 = db) ∧
    ((deleteIncident db (some uid) isAdminH incId).1 = 403 ↔
       ¬(isAdminH = some "true" ∨ inc.reportedById = uid)) ∧
    ((deleteIncident db (some uid) isAdminH incId).1 = 403 →
       (deleteIncident db (some uid) isAdminH incId).2 = db) ∧
    ((deleteEvidence db (some uid) isAdminH incId evId).1 = 403 ↔
       ¬(isAdminH = some "true" ∨ ev.addedById = uid)) ∧
    ((deleteEvidence db (some uid) isAdminH incId evId).1 = 403 →
       (deleteEvidence db (some uid) isAdminH incId evId).2 = db) := by
  have hids : ¬(incId = "" ∨ evId = "") := by
    rintro (h | h)
    · exact hincid (Or.inl h)
    · exact hevid h
  obtain ⟨p1, p2⟩ :=
    patchIncident_forbidden_iff db uid isAdminH incId body inc huid hincid hfindI
  obtain ⟨d1, d2⟩ :=
    deleteIncident_forbidden_iff db uid isAdminH incId inc huid hincid hfindI
  obtain ⟨e1, e2⟩ :=
    deleteEvidence_forbidden_iff db uid isAdminH incId evId ev huid hids hfindE hmatch
  exact ⟨p1, p2, d1, d2, e1, e2⟩

/-- C2, witness: user u2 (non-admin, neither the reporter nor the adder)
attempts PATCH and DELETE on incident i1 reported by u1, and DELETE on
evidence e1 added by u1: each yields 403, and PATCH leaves the store
unchanged. -/
theorem c2_admin_or_owner_policy_witness :
    (patchIncident
        { users := [],
          incidents := [{ id := "i1", caseNumber := "C1", reportedAt := 0,
                          occurredAt := 0, location := "L", crimeType := "T",
                          description := "D", status := "Open",
                          closingReason := none, reportedById := "u1" }],
          evidence := [{ id := "e1", description := "d", type := "Photo",
                         storageReference := "s", incidentId := "i1",
                         addedById := "u1", createdAt := 0 }] }
        (some "u2") none "i1"
        { occurredAt := none, location := some "newL", crimeType := none,
          description := none, status := none, closingReason := none,
          reportedByIdRaw := none }).1 = 403 ∧
    (patchIncident
        { users := [],
          incidents := [{ id := "i1", caseNumber := "C1", reportedAt := 0,
                          occurredAt := 0, location := "L", crimeType := "T",
                          description := "D", status := "Open",
                          closingReason := none, reportedById := "u1" }],
          evidence := [{ id := "e1", description := "d", type := "Photo",
                         storageReference := "s", incidentId := "i1",
                         addedById := "u1", createdAt := 0 }] }
        (some "u2") none "i1"
        { occurredAt := none, location := some "newL", crimeType := none,
          description := none, status := none, closingReason := none,
          reportedByIdRaw := none }).2 =
      { users := [],
        incidents := [{ id := "i1", caseNumber := "C1", reportedAt := 0,
                        occurredAt := 0, location := "L", crimeType := "T",
                        description := "D", status := "Open",
                        closingReason := none, reportedById := "u1" }],
        evidence := [{ id := "e1", description := "d", type := "Photo",
                       storageReference := "s", incidentId := "i1",
                       addedById := "u1", createdAt := 0 }] } ∧
    (deleteIncident
        { users := [],
          incidents := [{ id := "i1", caseNumber := "C1", reportedAt := 0,
                          occurredAt := 0, location := "L", crimeType := "T",
                          description := "D", status := "Open",
                          closingReason := none, reportedById := "u1" }],
          evidence := [{ id := "e1", description := "d", type := "Photo",
                         storageReference := "s", incidentId := "i1",
                         addedById := "u1", createdAt := 0 }] }
        (some "u2") none "i1").1 = 403 ∧
    (deleteEvidence
        { users := [],
          incidents := [{ id := "i1", caseNumber := "C1", reportedAt := 0,
                          occurredAt := 0, location := "L", crimeType := "T",
                          description := "D", status := "Open",
                          closingReason := none, reportedById := "u1" }],
          evidence := [{ id := "e1", description := "d", type := "Photo",
                         storageReference := "s", incidentId := "i1",
                         addedById := "u1", createdAt := 0 }] }
        (some "u2") none "i1" "e1").1 = 403 := by
  have h := c2_admin_or_owner_policy
    { users := [],
      incidents := [{ id := "i1", caseNumber := "C1", reportedAt := 0,
                      occurredAt := 0, location := "L", crimeType := "T",
                      description := "D", status := "Open",
                      closingReason := none, reportedById := "u1" }],
      evidence := [{ id := "e1", description := "d", type := "Photo",
                     storageReference := "s", incidentId := "i1",
                     addedById := "u1", createdAt := 0 }] }
    "u2" none "i1" "e1"
    { occurredAt := none, location := some "newL", crimeType := none,
      description := none, status := none, closingReason := none,
      reportedByIdRaw := none }
    { id := "i1", caseNumber := "C1", reportedAt := 0,
      occurredAt := 0, location := "L", crimeType := "T",
      description := "D", status := "Open",
      closingReason := none, reportedById := "u1" }
    { id := "e1", description := "d", type := "Photo",
      storageReference := "s", incidentId := "i1",
      addedById := "u1", createdAt := 0 }
    (by decide) (by decide) (by decide) (by decide) (by decide) (by decide)
  exact ⟨h.1.mpr (by decide), h.2.1 (h.1.mpr (by decide)),
         h.2.2.1.mpr (by decide), h.2.2.2.2.1.mpr (by decide)⟩

/-- The PATCH handler never changes reportedById (IncidentUpdateSchema has
no such field and zod strips unknown keys). -/
theorem map_reportedById_update (l : List Incident) (pid : String) (u : UpdateData) :
    (l.map (fun i => if i.id == pid then applyUpdate i u else i)).map
        Incident.reportedById = l.map Incident.reportedById := by
  induction l with
  | nil => rfl
  | cons a t ih =>
      simp only [List.map_cons, ih]
      by_cases h : a.id == pid
      · simp [h, applyUpdate]
      · simp [h]

/-- C3, counterexample.  The claim says the authenticated creator becomes
the owner.  But the POST handler takes reportedById from the request body:
with authenticated actor `cuseraaaaaaaa1`, a body naming
`cuserbbbbbbbb2` (an existing user) succeeds with 201 and stores
reportedById `cuserbbbbbbbb2`, which differs from the creator's id. -/
theorem c3_counterexample :
    (createIncident
        { users := [{ id := "cuseraaaaaaaa1", badgeId := "B1", name := "A",
                      isAdmin := false },
                    { id := "cuserbbbbbbbb2", badgeId := "B2", name := "B",
                      isAdmin := false }],
          incidents := [], evidence := [] }
        "cuseraaaaaaaa1"
        { occurredAt := some 50, location := some "L", crimeType := some "T",
          description := some "D", reportedById := some "cuserbbbbbbbb2",
          status := none }
        "i9" "CASE9" 100).1 = 201 ∧
    ((createIncident
        { users := [{ id := "cuseraaaaaaaa1", badgeId := "B1", name := "A",
                      isAdmin := false },
                    { id := "cuserbbbbbbbb2", badgeId := "B2", name := "B",
                      isAdmin := false }],
          incidents := [], evidence := [] }
        "cuseraaaaaaaa1"
        { occurredAt := some 50, location := some "L", crimeType := some "T",
          description := some "D", reportedById := some "cuserbbbbbbbb2",
          status := none }
        "i9" "CASE9" 100).2.incidents.map Incident.reportedById) =
      ["cuserbbbbbbbb2"] ∧
    "cuserbbbbbbbb2" ≠ "cuseraaaaaaaa1" := by decide

/-- C3, amended: for every successful Incident creation via
POST /incidents, the stored reportedById equals the reportedById supplied
in the request body (which must name an existing user); it is not derived
from the authenticated creator and may differ from the creator's id.
reportedById is immutable thereafter: no PATCH changes any incident's
reportedById. -/
theorem c3_amended_reportedById (db : Db) (actorId : String) (body : CreateBody)
    (newId newCase : String) (now : Int) (rid : String)
    (db2 : Db) (uH aH : Option String) (pid : String) (pbody : UpdateBody)
    (hrid : body.reportedById = some rid)
    (h201 : (createIncident db actorId body newId newCase now).1 = 201) :
    ((createIncident db actorId body newId newCase now).2.incidents.map
        Incident.reportedById) = db.incidents.map Incident.reportedById ++ [rid] ∧
    (patchIncident db2 uH aH pid pbody).2.incidents.map Incident.reportedById
      = db2.incidents.map Incident.reportedById := by
  constructor
  · revert h201
    unfold createIncident
    rcases hp : zodCreateParse body with _ | p
    · intro h; simp at h
    · have hpr : p.reportedById = rid := by
        unfold zodCreateParse at hp
        split at hp
        · cases hp
          simp [hrid]
        · cases hp
      rcases hu : db.users.find? (fun u => u.id == p.reportedById) with _ | u <;>
        intro h
      · simp [hu] at h
      · simp only [hu]
        simp [hpr]
  · unfold patchIncident
    split
    · rfl
    · split
      · rfl
      · split
        · rfl
        · split
          · rfl
          · split
            · rfl
            · split
              · rfl
              · exact map_reportedById_update db2.incidents pid _

/-- C3 amended, witness: creating with body owner `cuserbbbbbbbb2` appends
that owner, and a concrete PATCH (by the owner, changing location) leaves
every reportedById unchanged. -/
theorem c3_amended_reportedById_witness :
    ((createIncident
        { users := [{ id := "cuserbbbbbbbb2", badgeId := "B2", name := "B",
                      isAdmin := false }],
          incidents := [], evidence := [] }
        "cuseraaaaaaaa1"
        { occurredAt := some 50, location := some "L", crimeType := some "T",
          description := some "D", reportedById := some "cuserbbbbbbbb2",
          status := none }
        "i9" "CASE9" 100).2.incidents.map Incident.reportedById) =
      ([] : List Incident).map Incident.reportedById ++ ["cuserbbbbbbbb2"] ∧
    (patchIncident
        { users := [],
          incidents := [{ id := "i1", caseNumber := "C1", reportedAt := 0,
                          occurredAt := 0, location := "L", crimeType := "T",
                          description := "D", status := "Open",
                          closingReason := none, reportedById := "u1" }],
          evidence := [] }
        (some "u1") none "i1"
        { occurredAt := none, location := some "newL", crimeType := none,
          description := none, status := none, closingReason := none,
          reportedByIdRaw := some "u9" }).2.incidents.map Incident.reportedById
      = ({ users := [],
           incidents := [{ id := "i1", caseNumber := "C1", reportedAt := 0,
                           occurredAt := 0, location := "L", crimeType := "T",
                           description := "D", status := "Open",
                           closingReason := none, reportedById := "u1" }],
           evidence := [] } : Db).incidents.map Incident.reportedById :=
  c3_amended_reportedById
    { users := [{ id := "cuserbbbbbbbb2", badgeId := "B2", name := "B",
                  isAdmin := false }],
      incidents := [], evidence := [] }
    "cuseraaaaaaaa1"
    { occurredAt := some 50, location := some "L", crimeType := some "T",
      description := some "D", reportedById := some "cuserbbbbbbbb2",
      status := none }
    "i9" "CASE9" 100 "cuserbbbbbbbb2"
    { users := [],
      incidents := [{ id := "i1", caseNumber := "C1", reportedAt := 0,
                      occurredAt := 0, location := "L", crimeType := "T",
                      description := "D", status := "Open",
                      closingReason := none, reportedById := "u1" }],
      evidence := [] }
    (some "u1") none "i1"
    { occurredAt := none, location := some "newL", crimeType := none,
      description := none, status := none, closingReason := none,
      reportedByIdRaw := some "u9" }
    rfl (by decide)

/-- C4, counterexample.  The claim's allow-list includes caseNumber, so
(sortBy=caseNumber, sortOrder=asc) should be applied as given; the code's
`allowedSortByFields` omits caseNumber, and the pair silently falls back
to the default sort (reportedAt, desc). -/
theorem c4_counterexample :
    orderByClause (some "caseNumber") (some "asc") = ("reportedAt", "desc") ∧
    orderByClause (some "caseNumber") (some "asc") ≠ ("caseNumber", "asc") := by
  decide

/-- C4, amended: the sort allow-list is {reportedAt, occurredAt, status,
crimeType, location} — without caseNumber.  Any (sortBy, sortOrder) with
sortBy in that list and sortOrder asc/desc (after the `||` defaults) is
applied as given; any other pair — including sortBy=caseNumber — silently
falls back to sorting by reportedAt descending. -/
theorem c4_amended_sort_allowlist (sortByQ sortOrderQ : Option String) :
    (allowedSortByFields.contains (getOr sortByQ "reportedAt") = true →
     (getOr sortOrderQ "desc" = "asc" ∨ getOr sortOrderQ "desc" = "desc") →
     orderByClause sortByQ sortOrderQ =
       (getOr sortByQ "reportedAt", getOr sortOrderQ "desc")) ∧
    (allowedSortByFields.contains (getOr sortByQ "reportedAt") = false ∨
     (getOr sortOrderQ "desc" ≠ "asc" ∧ getOr sortOrderQ "desc" ≠ "desc") →
     orderByClause sortByQ sortOrderQ = ("reportedAt", "desc")) := by
  simp only [orderByClause]
  constructor
  · intro h1 h2
    have hcond : (allowedSortByFields.contains (getOr sortByQ "reportedAt") &&
        (getOr sortOrderQ "desc" == "asc" || getOr sortOrderQ "desc" == "desc"))
        = true := by
      simp only [Bool.and_eq_true, Bool.or_eq_true, beq_iff_eq]
      exact ⟨h1, h2⟩
    rw [if_pos hcond]
  · intro hneg
    have hcond : ¬((allowedSortByFields.contains (getOr sortByQ "reportedAt") &&
        (getOr sortOrderQ "desc" == "asc" || getOr sortOrderQ "desc" == "desc"))
        = true) := by
      simp only [Bool.and_eq_true, Bool.or_eq_true, beq_iff_eq]
      rintro ⟨ha, hb⟩
      rcases hneg with h | ⟨h1, h2⟩
      · rw [ha] at h; cases h
      · rcases hb with h | h
        · exact h1 h
        · exact h2 h
    rw [if_neg hcond]

/-- C4 amended, witness: (location, asc) is applied as given, while
(caseNumber, asc) falls back to (reportedAt, desc). -/
theorem c4_amended_sort_allowlist_witness :
    orderByClause (some "location") (some "asc") = ("location", "asc") ∧
    orderByClause (some "caseNumber") (some "asc") = ("reportedAt", "desc") :=
  ⟨(c4_amended_sort_allowlist (some "location") (some "asc")).1
      (by decide) (by decide),
   (c4_amended_sort_allowlist (some "caseNumber") (some "asc")).2
      (by decide)⟩

/-- C5, counterexample.  The claim promises a clamped effective page for
arbitrary page/limit query values.  With page="abc", `parseInt` yields NaN
and `Math.max(1, NaN)` is NaN (no clamped page exists); the NaN reaches
the store's skip argument, the call throws, and the request answers 500
with no pagination metadata at all. -/
theorem c5_counterexample :
    effectivePage (some "abc") = none ∧
    listIncidents { users := [], incidents := [], evidence := [] }
      (some "abc") none none none none none = none := by decide

/-- C5, amended: whenever the page and limit query values parse to numbers
(in particular whenever they are absent, so the defaults '1' and '10'
apply), the list call succeeds with effective page ≥ 1 and effective limit
in [1,50], totalCount equal to the number of records matching the filter,
totalPages = ceil(totalCount/limit), and at most limit returned incidents;
non-numeric page or limit values make the request fail with 500 instead of
being clamped. -/
theorem c5_amended_pagination (db : Db)
    (pageQ limitQ statusQ searchQ sbQ soQ : Option String) (p l : Int)
    (hp : effectivePage pageQ = some p) (hl : effectiveLimit limitQ = some l) :
    listIncidents db pageQ limitQ statusQ searchQ sbQ soQ =
      some (listOk db p l statusQ searchQ sbQ soQ) ∧
    1 ≤ (listOk db p l statusQ searchQ sbQ soQ).currentPage ∧
    1 ≤ (listOk db p l statusQ searchQ sbQ soQ).limit ∧
    (listOk db p l statusQ searchQ sbQ soQ).limit ≤ 50 ∧
    (listOk db p l statusQ searchQ sbQ soQ).totalCount =
      (db.incidents.filter (matchesFilter statusQ searchQ)).length ∧
    (listOk db p l statusQ searchQ sbQ soQ).totalPages =
      ((listOk db p l statusQ searchQ sbQ soQ).totalCount +
        (listOk db p l statusQ searchQ sbQ soQ).limit.toNat - 1) /
        (listOk db p l statusQ searchQ sbQ soQ).limit.toNat ∧
    ((listOk db p l statusQ searchQ sbQ soQ).incidents.length : Int) ≤
      (listOk db p l statusQ searchQ sbQ soQ).limit := by
  have hp' : ∃ n, jsParseInt (getOr pageQ "1") = some n ∧ p = max 1 n := by
    unfold effectivePage at hp
    rcases h : jsParseInt (getOr pageQ "1") with _ | n <;> rw [h] at hp
    · cases hp
    · simp only [Option.map_some'] at hp
      exact ⟨n, rfl, (Option.some.inj hp).symm⟩
  have hl' : ∃ n, jsParseInt (getOr limitQ "10") = some n ∧
      l = max 1 (min 50 n) := by
    unfold effectiveLimit at hl
    rcases h : jsParseInt (getOr limitQ "10") with _ | n <;> rw [h] at hl
    · cases hl
    · simp only [Option.map_some'] at hl
      exact ⟨n, rfl, (Option.some.inj hl).symm⟩
  obtain ⟨np, hnp, hpeq⟩ := hp'
  obtain ⟨nl, hnl, hleq⟩ := hl'
  have h1p : (1 : Int) ≤ p := by rw [hpeq]; exact le_max_left 1 np
  have h1l : (1 : Int) ≤ l := by rw [hleq]; exact le_max_left 1 (min 50 nl)
  have h50 : l ≤ 50 := by
    rw [hleq]
    exact max_le (by norm_num) (min_le_left 50 nl)
  refine ⟨?_, h1p, h1l, h50, rfl, rfl, ?_⟩
  · unfold listIncidents
    rw [hp, hl]
  · have hlen : (listOk db p l statusQ searchQ sbQ soQ).incidents.length ≤
        l.toNat := by
      simp only [listOk]
      exact List.length_take_le _ _
    have hlim : (listOk db p l statusQ searchQ sbQ soQ).limit = l := rfl
    rw [hlim]
    omega

/-- C5 amended, witness: with absent page/limit params (defaults 1 and
10) on a one-incident store, the list call returns the page with the
clamped metadata. -/
theorem c5_amended_pagination_witness :
    listIncidents
        { users := [],
          incidents := [{ id := "i1", caseNumber := "C1", reportedAt := 5,
                          occurredAt := 0, location := "L", crimeType := "T",
                          description := "D", status := "Open",
                          closingReason := none, reportedById := "u1" }],
          evidence := [] } none none none none none none =
      some (listOk
        { users := [],
          incidents := [{ id := "i1", caseNumber := "C1", reportedAt := 5,
                          occurredAt := 0, location := "L", crimeType := "T",
                          description := "D", status := "Open",
                          closingReason := none, reportedById := "u1" }],
          evidence := [] } 1 10 none none none none) ∧
    1 ≤ (listOk
        { users := [],
          incidents := [{ id := "i1", caseNumber := "C1", reportedAt := 5,
                          occurredAt := 0, location := "L", crimeType := "T",
                          description := "D", status := "Open",
                          closingReason := none, reportedById := "u1" }],
          evidence := [] } 1 10 none none none none).currentPage ∧
    1 ≤ (listOk
        { users := [],
          incidents := [{ id := "i1", caseNumber := "C1", reportedAt := 5,
                          occurredAt := 0, location := "L", crimeType := "T",
                          description := "D", status := "Open",
                          closingReason := none, reportedById := "u1" }],
          evidence := [] } 1 10 none none none none).limit ∧
    (listOk
        { users := [],
          incidents := [{ id := "i1", caseNumber := "C1", reportedAt := 5,
                          occurredAt := 0, location := "L", crimeType := "T",
                          description := "D", status := "Open",
                          closingReason := none, reportedById := "u1" }],
          evidence := [] } 1 10 none none none none).limit ≤ 50 ∧
    (listOk
        { users := [],
          incidents := [{ id := "i1", caseNumber := "C1", reportedAt := 5,
                          occurredAt := 0, location := "L", crimeType := "T",
                          description := "D", status := "Open",
                          closingReason := none, reportedById := "u1" }],
          evidence := [] } 1 10 none none none none).totalCount =
      (({ users := [],
          incidents := [{ id := "i1", caseNumber := "C1", reportedAt := 5,
                          occurredAt := 0, location := "L", crimeType := "T",
                          description := "D", status := "Open",
                          closingReason := none, reportedById := "u1" }],
          evidence := [] } : Db).incidents.filter
        (matchesFilter none none)).length ∧
    (listOk
        { users := [],
          incidents := [{ id := "i1", caseNumber := "C1", reportedAt := 5,
                          occurredAt := 0, location := "L", crimeType := "T",
                          description := "D", status := "Open",
                          closingReason := none, reportedById := "u1" }],
          evidence := [] } 1 10 none none none none).totalPages =
      ((listOk
        { users := [],
          incidents := [{ id := "i1", caseNumber := "C1", reportedAt := 5,
                          occurredAt := 0, location := "L", crimeType := "T",
                          description := "D", status := "Open",
                          closingReason := none, reportedById := "u1" }],
          evidence := [] } 1 10 none none none none).totalCount +
        (listOk
        { users := [],
          incidents := [{ id := "i1", caseNumber := "C1", reportedAt := 5,
                          occurredAt := 0, location := "L", crimeType := "T",
                          description := "D", status := "Open",
                          closingReason := none, reportedById := "u1" }],
          evidence := [] } 1 10 none none none none).limit.toNat - 1) /
        (listOk
        { users := [],
          incidents := [{ id := "i1", caseNumber := "C1", reportedAt := 5,
                          occurredAt := 0, location := "L", crimeType := "T",
                          description := "D", status := "Open",
                          closingReason := none, reportedById := "u1" }],
          evidence := [] } 1 10 none none none none).limit.toNat ∧
    ((listOk
        { users := [],
          incidents := [{ id := "i1", caseNumber := "C1", reportedAt := 5,
                          occurredAt := 0, location := "L", crimeType := "T",
                          description := "D", status := "Open",
                          closingReason := none, reportedById := "u1" }],
          evidence := [] } 1 10 none none none none).incidents.length : Int) ≤
      (listOk
        { users := [],
          incidents := [{ id := "i1", caseNumber := "C1", reportedAt := 5,
                          occurredAt := 0, location := "L", crimeType := "T",
                          description := "D", status := "Open",
                          closingReason := none, reportedById := "u1" }],
          evidence := [] } 1 10 none none none none).limit :=
  c5_amended_pagination
    { users := [],
      incidents := [{ id := "i1", caseNumber := "C1", reportedAt := 5,
                      occurredAt := 0, location := "L", crimeType := "T",
                      description := "D", status := "Open",
                      closingReason := none, reportedById := "u1" }],
      evidence := [] }
    none none none none none none 1 10 (by decide) (by decide)

/-- C6: for every evidence delete by an authenticated actor (non-empty
path ids, as produced by the router), the outcome is exactly: 404 when no
evidence with that id exists; otherwise 400 when the evidence belongs to a
different incident than the path; otherwise 403 unless the actor is admin
or the original adder; otherwise the evidence is deleted and the response
is 204 with no content. -/
theorem c6_evidence_delete_outcomes (db : Db) (uid : String)
    (isAdminH : Option String) (incId evId : String)
    (huid : uid ≠ "") (hi : incId ≠ "") (he : evId ≠ "") :
    (db.evidence.find? (fun e => e.id == evId) = none →
      deleteEvidence db (some uid) isAdminH incId evId = (404, db)) ∧
    (∀ ev, db.evidence.find? (fun e => e.id == evId) = some ev →
      ev.incidentId ≠ incId →
      deleteEvidence db (some uid) isAdminH incId evId = (400, db)) ∧
    (∀ ev, db.evidence.find? (fun e => e.id == evId) = some ev →
      ev.incidentId = incId →
      ¬(isAdminH = some "true" ∨ ev.addedById = uid) →
      deleteEvidence db (some uid) isAdminH incId evId = (403, db)) ∧
    (∀ ev, db.evidence.find? (fun e => e.id == evId) = some ev →
      ev.incidentId = incId →
      (isAdminH = some "true" ∨ ev.addedById = uid) →
      deleteEvidence db (some uid) isAdminH incId evId =
        (204, { db with
                evidence := db.evidence.filter (fun e => !(e.id == evId)) })) := by
  have hids : ¬(incId = "" ∨ evId = "") := by
    rintro (h | h)
    · exact hi h
    · exact he h
  have huid' : ¬((some uid).getD "" = "") := by simpa using huid
  refine ⟨?_, ?_, ?_, ?_⟩
  · intro h404
    unfold deleteEvidence
    rw [if_neg hids, if_neg huid', h404]
  · intro ev hfind hne
    unfold deleteEvidence
    rw [if_neg hids, if_neg huid', hfind]
    simp [hne]
  · intro ev hfind hmatch hno
    rw [deleteEvidence_reduce db uid isAdminH incId evId ev huid hids hfind hmatch]
    rw [if_pos (by tauto)]
  · intro ev hfind hmatch hyes
    rw [deleteEvidence_reduce db uid isAdminH incId evId ev huid hids hfind hmatch]
    rw [if_neg (by tauto)]

/-- C6, witness: the four outcomes on concrete stores — missing evidence
gives 404; evidence under another incident gives 400; a stranger gets
403; the adder's delete returns 204 and removes the record. -/
theorem c6_evidence_delete_outcomes_witness :
    deleteEvidence { users := [], incidents := [], evidence := [] }
      (some "u1") none "i1" "e1" = (404, { users := [], incidents := [], evidence := [] }) ∧
    deleteEvidence
      { users := [], incidents := [],
        evidence := [{ id := "e1", description := "d", type := "Photo",
                       storageReference := "s", incidentId := "i2",
                       addedById := "u1", createdAt := 0 }] }
      (some "u1") none "i1" "e1" =
      (400, { users := [], incidents := [],
              evidence := [{ id := "e1", description := "d", type := "Photo",
                             storageReference := "s", incidentId := "i2",
                             addedById := "u1", createdAt := 0 }] }) ∧
    deleteEvidence
      { users := [], incidents := [],
        evidence := [{ id := "e1", description := "d", type := "Photo",
                       storageReference := "s", incidentId := "i1",
                       addedById := "u1", createdAt := 0 }] }
      (some "u2") none "i1" "e1" =
      (403, { users := [], incidents := [],
              evidence := [{ id := "e1", description := "d", type := "Photo",
                             storageReference := "s", incidentId := "i1",
                             addedById := "u1", createdAt := 0 }] }) ∧
    deleteEvidence
      { users := [], incidents := [],
        evidence := [{ id := "e1", description := "d", type := "Photo",
                       storageReference := "s", incidentId := "i1",
                       addedById := "u1", createdAt := 0 }] }
      (some "u1") none "i1" "e1" =
      (204, { users := [], incidents := [], evidence := [] }) := by
  refine ⟨?_, ?_, ?_, ?_⟩
  · exact (c6_evidence_delete_outcomes
      { users := [], incidents := [], evidence := [] } "u1" none "i1" "e1"
      (by decide) (by decide) (by decide)).1 rfl
  · exact (c6_evidence_delete_outcomes
      { users := [], incidents := [],
        evidence := [{ id := "e1", description := "d", type := "Photo",
                       storageReference := "s", incidentId := "i2",
                       addedById := "u1", createdAt := 0 }] }
      "u1" none "i1" "e1" (by decide) (by decide) (by decide)).2.1
      { id := "e1", description := "d", type := "Photo",
        storageReference := "s", incidentId := "i2",
        addedById := "u1", createdAt := 0 } rfl (by decide)
  · exact (c6_evidence_delete_outcomes
      { users := [], incidents := [],
        evidence := [{ id := "e1", description := "d", type := "Photo",
                       storageReference := "s", incidentId := "i1",
                       addedById := "u1", createdAt := 0 }] }
      "u2" none "i1" "e1" (by decide) (by decide) (by decide)).2.2.1
      { id := "e1", description := "d", type := "Photo",
        storageReference := "s", incidentId := "i1",
        addedById := "u1", createdAt := 0 } rfl rfl (by decide)
  · exact (c6_evidence_delete_outcomes
      { users := [], incidents := [],
        evidence := [{ id := "e1", description := "d", type := "Photo",
                       storageReference := "s", incidentId := "i1",
                       addedById := "u1", createdAt := 0 }] }
      "u1" none "i1" "e1" (by decide) (by decide) (by decide)).2.2.2
      { id := "e1", description := "d", type := "Photo",
        storageReference := "s", incidentId := "i1",
        addedById := "u1", createdAt := 0 } rfl rfl (by decide)

/-- C7: for every request to a protected path, the Access Gate responds
401 "Authentication required." when no bearer token is present; responds
500 when a token is presented but no signing secret is configured;
responds 401 (distinguished only in the message) for every token whose
verification fails; and on successful verification proceeds with the
claims injected as the X-User-Id, X-User-BadgeId and X-User-IsAdmin
headers. -/
theorem c7_access_gate (authHeader jwtSecret : Option String)
    (verify : String → VerifyResult) :
    (bearerToken authHeader = none →
      middleware authHeader jwtSecret verify =
        .respond 401 "Authentication required.") ∧
    (∀ t, bearerToken authHeader = some t →
      secretConfigured jwtSecret = false →
      middleware authHeader jwtSecret verify =
        .respond 500 "Internal server configuration error.") ∧
    (∀ t, bearerToken authHeader = some t →
      secretConfigured jwtSecret = true →
      (verify t).isOk = false →
      (middleware authHeader jwtSecret verify).statusCode = some 401) ∧
    (∀ t u b a, bearerToken authHeader = some t →
      secretConfigured jwtSecret = true →
      verify t = .ok u b a →
      middleware authHeader jwtSecret verify =
        .proceed u b (if a then "true" else "false")) := by
  refine ⟨?_, ?_, ?_, ?_⟩
  · intro h
    unfold middleware
    rw [h]
  · intro t ht hs
    unfold middleware
    rw [ht]
    simp [hs]
  · intro t ht hs hv
    unfold middleware
    rw [ht, hs]
    dsimp only
    cases h : verify t with
    | ok u b a => rw [h] at hv; simp [VerifyResult.isOk] at hv
    | expired => rfl
    | jwtInvalid => rfl
    | joseGeneric => rfl
    | otherError => rfl
  · intro t u b a ht hs hv
    unfold middleware
    rw [ht, hs]
    dsimp only
    rw [hv]
    rfl

/-- C7, witness: the four gate outcomes at concrete inputs — no header
gives 401 "Authentication required."; a token without a configured secret
gives 500; an expired token gives a 401 status; a verified token proceeds
with the identity headers. -/
theorem c7_access_gate_witness :
    middleware none (some "s") (fun _ => VerifyResult.expired) =
      .respond 401 "Authentication required." ∧
    middleware (some "Bearer tok") none (fun _ => VerifyResult.expired) =
      .respond 500 "Internal server configuration error." ∧
    (middleware (some "Bearer tok") (some "s")
      (fun _ => VerifyResult.expired)).statusCode = some 401 ∧
    middleware (some "Bearer tok") (some "s")
      (fun _ => VerifyResult.ok "u7" "B7" true) =
      .proceed "u7" "B7" "true" := by
  refine ⟨?_, ?_, ?_, ?_⟩
  · exact (c7_access_gate none (some "s") (fun _ => VerifyResult.expired)).1
      (by decide)
  · exact (c7_access_gate (some "Bearer tok") none
      (fun _ => VerifyResult.expired)).2.1 "tok" (by decide) (by decide)
  · exact (c7_access_gate (some "Bearer tok") (some "s")
      (fun _ => VerifyResult.expired)).2.2.1 "tok" (by decide) (by decide) rfl
  · exact (c7_access_gate (some "Bearer tok") (some "s")
      (fun _ => VerifyResult.ok "u7" "B7" true)).2.2.2 "tok" "u7" "B7" true
      (by decide) (by decide) rfl

/-- C8: for every PATCH by an authorized actor (admin or reporter) on an
existing incident, a patch with zero effective fields — the empty JSON
object, or one whose keys are all stripped by the schema (here: any
unknown reportedById key, with every schema field absent) — is rejected
with 400 and the store is unchanged. -/
theorem c8_empty_patch_rejected (db : Db) (uid : String)
    (isAdminH : Option String) (id : String) (inc : Incident)
    (raw : Option String)
    (huid : uid ≠ "") (hid : ¬(id = "" ∨ id = "[id]"))
    (hfind : db.incidents.find? (fun i => i.id == id) = some inc)
    (hallow : isAdminH = some "true" ∨ inc.reportedById = uid) :
    patchIncident db (some uid) isAdminH id
      { occurredAt := none, location := none, crimeType := none,
        description := none, status := none, closingReason := none,
        reportedByIdRaw := raw } = (400, db) := by
  rw [patchIncident_reduce db uid isAdminH id _ inc huid hid hfind]
  rw [if_neg (by tauto)]
  have hz : zodUpdateParse
      { occurredAt := none, location := none, crimeType := none,
        description := none, status := none, closingReason := none,
        reportedByIdRaw := raw } = none := rfl
  rw [hz]

/-- C8, witness: the owner u1 of incident i1 sends the empty patch (with a
stray reportedById key): 400 and the store is unchanged. -/
theorem c8_empty_patch_rejected_witness :
    patchIncident
      { users := [],
        incidents := [{ id := "i1", caseNumber := "C1", reportedAt := 0,
                        occurredAt := 0, location := "L", crimeType := "T",
                        description := "D", status := "Open",
                        closingReason := none, reportedById := "u1" }],
        evidence := [] }
      (some "u1") none "i1"
      { occurredAt := none, location := none, crimeType := none,
        description := none, status := none, closingReason := none,
        reportedByIdRaw := some "u9" } =
      (400,
        { users := [],
          incidents := [{ id := "i1", caseNumber := "C1", reportedAt := 0,
                          occurredAt := 0, location := "L", crimeType := "T",
                          description := "D", status := "Open",
                          closingReason := none, reportedById := "u1" }],
          evidence := [] }) :=
  c8_empty_patch_rejected
    { users := [],
      incidents := [{ id := "i1", caseNumber := "C1", reportedAt := 0,
                      occurredAt := 0, location := "L", crimeType := "T",
                      description := "D", status := "Open",
                      closingReason := none, reportedById := "u1" }],
      evidence := [] }
    "u1" none "i1"
    { id := "i1", caseNumber := "C1", reportedAt := 0,
      occurredAt := 0, location := "L", crimeType := "T",
      description := "D", status := "Open",
      closingReason := none, reportedById := "u1" }
    (some "u9") (by decide) (by decide) rfl (by decide)

/-- C9: for every successful evidence creation, the stored addedById is
the authenticated caller's user id from the X-User-Id header set by the
Access Gate; an addedById key in the request body is stripped by the
schema and cannot designate a different adder — in contrast to incident
creation, where the owner id comes from the body. -/
theorem c9_addedById_from_token (db : Db) (uid incId : String)
    (body : EvidenceBody) (newId : String) (now : Int) (raw : Option String)
    (h201 : (createEvidence db (some uid) incId body newId now).1 = 201) :
    ((createEvidence db (some uid) incId body newId now).2.evidence.map
        Evidence.addedById) = db.evidence.map Evidence.addedById ++ [uid] ∧
    createEvidence db (some uid) incId { body with rawAddedById := raw }
        newId now
      = createEvidence db (some uid) incId body newId now := by
  have hzp : zodEvidenceParse { body with rawAddedById := raw } =
      zodEvidenceParse body := by
    cases body
    rfl
  constructor
  · revert h201
    unfold createEvidence
    split
    · intro h; simp at h
    · split
      · intro h; simp at h
      · split
        · intro h; simp at h
        · split
          · intro h; simp at h
          · intro _
            simp
  · simp only [createEvidence, hzp]

/-- C9, witness: user u1 posts evidence to incident i1 with a stray
addedById key naming u9: the stored addedById is u1, and changing the
stray key does not change the outcome. -/
theorem c9_addedById_from_token_witness :
    ((createEvidence
        { users := [],
          incidents := [{ id := "i1", caseNumber := "C1", reportedAt := 0,
                          occurredAt := 0, location := "L", crimeType := "T",
                          description := "D", status := "Open",
                          closingReason := none, reportedById := "u2" }],
          evidence := [] }
        (some "u1") "i1"
        { description := some "d", type := some "Photo",
          storageReference := some "s", rawAddedById := some "u9" }
        "e1" 7).2.evidence.map Evidence.addedById) =
      ([] : List Evidence).map Evidence.addedById ++ ["u1"] ∧
    createEvidence
        { users := [],
          incidents := [{ id := "i1", caseNumber := "C1", reportedAt := 0,
                          occurredAt := 0, location := "L", crimeType := "T",
                          description := "D", status := "Open",
                          closingReason := none, reportedById := "u2" }],
          evidence := [] }
        (some "u1") "i1"
        { description := some "d", type := some "Photo",
          storageReference := some "s", rawAddedById := some "other" }
        "e1" 7 =
      createEvidence
        { users := [],
          incidents := [{ id := "i1", caseNumber := "C1", reportedAt := 0,
                          occurredAt := 0, location := "L", crimeType := "T",
                          description := "D", status := "Open",
                          closingReason := none, reportedById := "u2" }],
          evidence := [] }
        (some "u1") "i1"
        { description := some "d", type := some "Photo",
          storageReference := some "s", rawAddedById := some "u9" }
        "e1" 7 :=
  c9_addedById_from_token
    { users := [],
      incidents := [{ id := "i1", caseNumber := "C1", reportedAt := 0,
                      occurredAt := 0, location := "L", crimeType := "T",
                      description := "D", status := "Open",
                      closingReason := none, reportedById := "u2" }],
      evidence := [] }
    "u1" "i1"
    { description := some "d", type := some "Photo",
      storageReference := some "s", rawAddedById := some "u9" }
    "e1" 7 (some "other") (by decide)

/-- C10: every incident written through the public API has status in
{Open, Under Investigation, Closed}: a successful creation stores the
supplied status or defaults to 'Open' when it is omitted, and that stored
value is in the enum; a creation with any other supplied status is
rejected with 400; an update whose patch carries a status outside the
enum never succeeds and leaves the store unchanged — even though the
store's status column is an unconstrained string. -/
theorem c10_status_enum (db : Db) (actorId : String) (body : CreateBody)
    (newId newCase : String) (now : Int)
    (db2 : Db) (uH aH : Option String) (pid : String) (pbody : UpdateBody) :
    ((createIncident db actorId body newId newCase now).1 = 201 →
      ((createIncident db actorId body newId newCase now).2.incidents.map
          Incident.status) =
        db.incidents.map Incident.status ++ [body.status.getD "Open"] ∧
      statusEnum.contains (body.status.getD "Open") = true) ∧
    (∀ s, body.status = some s → statusEnum.contains s = false →
      createIncident db actorId body newId newCase now = (400, db)) ∧
    (∀ s, pbody.status = some s → statusEnum.contains s = false →
      (patchIncident db2 uH aH pid pbody).1 ≠ 200 ∧
      (patchIncident db2 uH aH pid pbody).2 = db2) := by
  refine ⟨?_, ?_, ?_⟩
  · intro h201
    have hparse : ∃ p, zodCreateParse body = some p := by
      rcases hz : zodCreateParse body with _ | p
      · unfold createIncident at h201
        rw [hz] at h201
        simp at h201
      · exact ⟨p, rfl⟩
    obtain ⟨p, hp⟩ := hparse
    have hvalid : zodCreateValid body = true := by
      by_contra hnv
      unfold zodCreateParse at hp
      rw [if_neg hnv] at hp
      cases hp
    have hps : p.status = body.status := by
      unfold zodCreateParse at hp
      rw [if_pos hvalid] at hp
      cases hp
      rfl
    have henum : statusEnum.contains (body.status.getD "Open") = true := by
      rcases hbs : body.status with _ | s
      · decide
      · have hok : statusOk (some s) = true := by
          unfold zodCreateValid at hvalid
          rw [hbs] at hvalid
          simp only [Bool.and_eq_true] at hvalid
          exact hvalid.2
        simpa [statusOk] using hok
    refine ⟨?_, henum⟩
    unfold createIncident
    rw [hp]
    rcases hu : db.users.find? (fun u => u.id == p.reportedById) with _ | u
    · exfalso
      unfold createIncident at h201
      rw [hp] at h201
      simp [hu] at h201
    · simp only [hu]
      simp [hps]
  · intro s hbs hcontains
    have hmem : s ∉ statusEnum := by simpa using hcontains
    have hfalse : zodCreateValid body = false := by
      unfold zodCreateValid
      rw [hbs]
      simp [statusOk, hmem]
    unfold createIncident zodCreateParse
    rw [hfalse]
    rfl
  · intro s hbs hcontains
    have hmem : s ∉ statusEnum := by simpa using hcontains
    have hzf : zodUpdateParse pbody = none := by
      have hfalse : zodUpdateValid pbody = false := by
        unfold zodUpdateValid
        rw [hbs]
        simp [statusOk, hmem]
      unfold zodUpdateParse
      rw [hfalse]
      rfl
    unfold patchIncident
    split
    · exact ⟨by simp, rfl⟩
    · split
      · exact ⟨by simp, rfl⟩
      · split
        · exact ⟨by simp, rfl⟩
        · split
          · exact ⟨by simp, rfl⟩
          · rw [hzf]
            exact ⟨by simp, rfl⟩

/-- C10, witness: a creation omitting status stores 'Open' (in the enum);
creating with status "Bogus" is rejected 400; patching incident i1 with
status "Bogus" does not succeed and changes nothing. -/
theorem c10_status_enum_witness :
    (((createIncident
        { users := [{ id := "cuserbbbbbbbb2", badgeId := "B2", name := "B",
                      isAdmin := false }],
          incidents := [], evidence := [] }
        "actor"
        { occurredAt := some 50, location := some "L", crimeType := some "T",
          description := some "D", reportedById := some "cuserbbbbbbbb2",
          status := none }
        "i9" "CASE9" 100).2.incidents.map Incident.status) =
      ([] : List Incident).map Incident.status ++
        [(none : Option String).getD "Open"] ∧
      statusEnum.contains ((none : Option String).getD "Open") = true) ∧
    createIncident
        { users := [{ id := "cuserbbbbbbbb2", badgeId := "B2", name := "B",
                      isAdmin := false }],
          incidents := [], evidence := [] }
        "actor"
        { occurredAt := some 50, location := some "L", crimeType := some "T",
          description := some "D", reportedById := some "cuserbbbbbbbb2",
          status := some "Bogus" }
        "i9" "CASE9" 100 =
      (400,
        { users := [{ id := "cuserbbbbbbbb2", badgeId := "B2", name := "B",
                      isAdmin := false }],
          incidents := [], evidence := [] }) ∧
    ((patchIncident
        { users := [],
          incidents := [{ id := "i1", caseNumber := "C1", reportedAt := 0,
                          occurredAt := 0, location := "L", crimeType := "T",
                          description := "D", status := "Open",
                          closingReason := none, reportedById := "u1" }],
          evidence := [] }
        (some "u1") none "i1"
        { occurredAt := none, location := none, crimeType := none,
          description := none, status := some "Bogus", closingReason := none,
          reportedByIdRaw := none }).1 ≠ 200 ∧
      (patchIncident
        { users := [],
          incidents := [{ id := "i1", caseNumber := "C1", reportedAt := 0,
                          occurredAt := 0, location := "L", crimeType := "T",
                          description := "D", status := "Open",
                          closingReason := none, reportedById := "u1" }],
          evidence := [] }
        (some "u1") none "i1"
        { occurredAt := none, location := none, crimeType := none,
          description := none, status := some "Bogus", closingReason := none,
          reportedByIdRaw := none }).2 =
        { users := [],
          incidents := [{ id := "i1", caseNumber := "C1", reportedAt := 0,
                          occurredAt := 0, location := "L", crimeType := "T",
                          description := "D", status := "Open",
                          closingReason := none, reportedById := "u1" }],
          evidence := [] }) := by
  refine ⟨?_, ?_, ?_⟩
  · exact (c10_status_enum
      { users := [{ id := "cuserbbbbbbbb2", badgeId := "B2", name := "B",
                    isAdmin := false }],
        incidents := [], evidence := [] }
      "actor"
      { occurredAt := some 50, location := some "L", crimeType := some "T",
        description := some "D", reportedById := some "cuserbbbbbbbb2",
        status := none }
      "i9" "CASE9" 100
      { users := [], incidents := [], evidence := [] } none none ""
      { occurredAt := none, location := none, crimeType := none,
        description := none, status := none, closingReason := none,
        reportedByIdRaw := none }).1 (by decide)
  · exact (c10_status_enum
      { users := [{ id := "cuserbbbbbbbb2", badgeId := "B2", name := "B",
                    isAdmin := false }],
        incidents := [], evidence := [] }
      "actor"
      { occurredAt := some 50, location := some "L", crimeType := some "T",
        description := some "D", reportedById := some "cuserbbbbbbbb2",
        status := some "Bogus" }
      "i9" "CASE9" 100
      { users := [], incidents := [], evidence := [] } none none ""
      { occurredAt := none, location := none, crimeType := none,
        description := none, status := none, closingReason := none,
        reportedByIdRaw := none }).2.1 "Bogus" rfl (by decide)
  · exact (c10_status_enum
      { users := [], incidents := [], evidence := [] } "actor"
      { occurredAt := none, location := none, crimeType := none,
        description := none, reportedById := none, status := none }
      "i9" "CASE9" 100
      { users := [],
        incidents := [{ id := "i1", caseNumber := "C1", reportedAt := 0,
                        occurredAt := 0, location := "L", crimeType := "T",
                        description := "D", status := "Open",
                        closingReason := none, reportedById := "u1" }],
        evidence := [] }
      (some "u1") none "i1"
      { occurredAt := none, location := none, crimeType := none,
        description := none, status := some "Bogus", closingReason := none,
        reportedByIdRaw := none }).2.2 "Bogus" rfl (by decide)
